import Mathlib

/-!
Verification of the map-graph core of react-mapdraw-navigator.

This file gives a shallow embedding, in Lean 4, of the state and the
operations implemented in `src/hooks/useMapNavigation.ts` (the graph
store, the navigation engine and the document normalizer) and of the
drag-to-hotspot coordinate pipeline of
`src/components/MapImageViewer.tsx`, and proves or refutes the frozen
claims about them.

Modelling conventions:
  - JavaScript objects keyed by strings (`MapCollection`,
    `mapViewTransforms`, JSON objects) are modelled as association
    lists `List (String × α)` in insertion order, assumed duplicate
    free (as produced by `JSON.parse` and by the code itself).
  - JavaScript numbers are modelled as exact rationals `ℚ`.
  - Fields that the TypeScript types declare optional, or that the
    runtime can leave `undefined` (the normalizer builds a
    `Partial<Hotspot>` and casts it), are modelled as `Option`s;
    `undefined` is `none`.
  - React `useState` state is gathered in one record `NavState`;
    each handler becomes a pure function `... → NavState → NavState`.
    `currentMapDisplayData` is derived state (recomputed by effects
    from `managedMapData` and `currentMapId`) and is not part of the
    record.
-/

/-- `EditAction` from `useMapNavigation.ts`. -/
inductive EditAction where
  | none
  | adding
  | selecting_for_deletion
  | changing_root_image
  | editing_hotspot
  | selecting_for_edit
deriving DecidableEq, Repr

/-- The `Hotspot` interface from `useMapNavigation.ts`.  Every field is an
`Option` because the normalizer can produce hotspots with any of these
fields `undefined` (it builds a `Partial<Hotspot>` and casts). -/
structure Hotspot where
  id : Option String
  x : Option ℚ
  y : Option ℚ
  width : Option ℚ
  height : Option ℚ
  title : Option String
  linkType : Option String
  link_to_map_id : Option String
  linkedUrl : Option String
  urlTarget : Option String
deriving DecidableEq, Repr

/-- The `MapDefinition` interface: one map node. -/
structure MapDefinition where
  imageUrl : Option String
  hotspots : List Hotspot
deriving DecidableEq, Repr

/-- `MapCollection`: the whole document, keyed by map id (association
list in JavaScript insertion order). -/
abbrev MapCollection := List (String × MapDefinition)

/-- `MapViewTransform` from `useMapNavigation.ts`. -/
structure MapViewTransform where
  scale : ℚ
  x : ℚ
  y : ℚ
deriving DecidableEq, Repr

/-- The mutable state held by the `useMapNavigation` hook. -/
structure NavState where
  graph : MapCollection
  currentMapId : Option String
  history : List String
  error : Option String
  editAction : EditAction
  mapViewTransforms : List (String × MapViewTransform)
deriving DecidableEq, Repr

/-- JavaScript property read `m[k]` on a string-keyed object. -/
def alGet {α : Type} : List (String × α) → String → Option α
  | [], _ => Option.none
  | (k', v) :: rest, k => if k' = k then some v else alGet rest k

/-- JavaScript property write `m[k] = v`: replaces in place when the key
exists, appends otherwise (insertion-order semantics). -/
def alInsert {α : Type} : List (String × α) → String → α → List (String × α)
  | [], k, v => [(k, v)]
  | (k', v') :: rest, k, v =>
    if k' = k then (k, v) :: rest else (k', v') :: alInsert rest k v

/-- JavaScript `delete m[k]`. -/
def alErase {α : Type} : List (String × α) → String → List (String × α)
  | [], _ => []
  | (k', v) :: rest, k =>
    if k' = k then alErase rest k else (k', v) :: alErase rest k

/-- JavaScript `s.includes(pat)` (substring test). -/
def strContainsSub (s pat : String) : Bool :=
  (List.range (s.data.length + 1)).any (fun i => pat.data.isPrefixOf (s.data.drop i))

/-- `navigateToChild` from `useMapNavigation.ts` (lines 239-259).  The
guard `if (!currentMapId) return` is a JavaScript truthiness test:
both `null` and the empty string make it return early. -/
def navigateToChild (childMapId : String) (s : NavState) : NavState :=
  if strContainsSub childMapId "://" || strContainsSub childMapId "/" then
    { s with error := some ("Navigation failed: Invalid format for target map ID: "
        ++ childMapId ++ ". Expected a valid key.") }
  else
    match s.currentMapId with
    | Option.none => s
    | some cur =>
      if cur = "" then s
      else
        match alGet s.graph childMapId with
        | some _ =>
          { s with error := Option.none
                 , history := s.history ++ [cur]
                 , currentMapId := some childMapId }
        | Option.none =>
          { s with error := some ("Navigation failed: Target map ID "
              ++ childMapId ++ " not found in map data.") }

/-- `navigateBack` from `useMapNavigation.ts` (lines 262-279). -/
def navigateBack (s : NavState) : NavState :=
  if s.history.length = 0 then s
  else
    match s.history.getLast? with
    | Option.none => s
    | some parentMapId =>
      match alGet s.graph parentMapId with
      | some _ =>
        { s with error := Option.none
               , currentMapId := some parentMapId
               , history := s.history.dropLast }
      | Option.none =>
        { s with error := some ("Error navigating back: Parent map ID "
            ++ parentMapId
            ++ " from history not found in current map data. History might be corrupted.") }

/-- JavaScript truthiness of an optional string (`undefined` and the
empty string are falsy). -/
def truthyS : Option String → Bool
  | Option.none => false
  | some s => !(s == "")

/-- `addHotspotAndMapDefinition` from `useMapNavigation.ts` (lines
288-330).  `setError(null)` runs first; the state updater may then
set an error, whose value wins. -/
def addHotspotAndMapDefinition (targetMapId : String) (newHotspot : Hotspot)
    (newMapImageUrl : String) (s : NavState) : NavState :=
  match alGet s.graph targetMapId with
  | Option.none =>
    { s with error := some ("Cannot add hotspot: Target map definition not found for ID "
        ++ targetMapId) }
  | some targetMapDef =>
    let g1 := alInsert s.graph targetMapId
      { targetMapDef with hotspots := targetMapDef.hotspots ++ [newHotspot] }
    if newHotspot.linkType = some "map" ∧ truthyS newHotspot.link_to_map_id
        ∧ newMapImageUrl ≠ "" then
      match newHotspot.link_to_map_id with
      | some newMapDefinitionId =>
        if (alGet g1 newMapDefinitionId).isSome then
          -- duplicate id: error, but the hotspot stays appended
          { s with graph := g1
                 , error := some ("Consistency Error: Map ID " ++ newMapDefinitionId
                     ++ " already exists. Cannot add new definition.") }
        else
          { s with graph := alInsert g1 newMapDefinitionId ⟨some newMapImageUrl, []⟩
                 , error := Option.none }
      | Option.none => { s with graph := g1, error := Option.none }
    else
      -- includes the linkType = map, empty newMapImageUrl case, which only warns
      { s with graph := g1, error := Option.none }

/-- Predicate of the graph-wide scan in `deleteHotspot`: does any hotspot
anywhere in `g` still link (as a map link) to `linkedMapId`? -/
def linksTo (g : MapCollection) (linkedMapId : String) : Bool :=
  g.any (fun kv => kv.2.hotspots.any
    (fun hs => hs.linkType == some "map" && hs.link_to_map_id == some linkedMapId))

/-- `deleteHotspot` from `useMapNavigation.ts` (lines 337-397). -/
def deleteHotspot (targetMapId hotspotIdToDelete : String) (s : NavState) : NavState :=
  match alGet s.graph targetMapId with
  | Option.none =>
    { s with error := some ("Erro ao deletar hotspot: Mapa alvo nao encontrado para ID "
        ++ targetMapId) }
  | some targetMapDef =>
    let hotspotToDelete := targetMapDef.hotspots.find?
      (fun hs => hs.id == some hotspotIdToDelete)
    let linkedMapId : Option String :=
      match hotspotToDelete with
      | some hs => if hs.linkType = some "map" then hs.link_to_map_id else Option.none
      | Option.none => Option.none
    let newHotspots := targetMapDef.hotspots.filter
      (fun hs => !(hs.id == some hotspotIdToDelete))
    if newHotspots.length = targetMapDef.hotspots.length then
      -- hotspot not found: warning only, previous data returned
      { s with error := Option.none }
    else
      let g1 := alInsert s.graph targetMapId { targetMapDef with hotspots := newHotspots }
      match linkedMapId with
      | some lid =>
        if lid ≠ "" ∧ (alGet g1 lid).isSome then
          if linksTo g1 lid then { s with graph := g1, error := Option.none }
          else { s with graph := alErase g1 lid, error := Option.none }
        else { s with graph := g1, error := Option.none }
      | Option.none => { s with graph := g1, error := Option.none }

/-- The `newDetails` argument of `updateHotspotDetails`
(`Partial<Omit<Hotspot, 'id' | 'x' | 'y' | 'width' | 'height'>>`).
The outer `Option` is "key present in the partial object"; the inner
one is the value, which may itself be `undefined` (and then still
overrides on spread). -/
structure HotspotDetails where
  title : Option (Option String)
  linkType : Option (Option String)
  link_to_map_id : Option (Option String)
  linkedUrl : Option (Option String)
  urlTarget : Option (Option String)
deriving DecidableEq, Repr

/-- The object spread `{ ...hs, ...newDetails }`. -/
def applyDetails (hs : Hotspot) (d : HotspotDetails) : Hotspot :=
  { hs with
    title := d.title.getD hs.title
    linkType := d.linkType.getD hs.linkType
    link_to_map_id := d.link_to_map_id.getD hs.link_to_map_id
    linkedUrl := d.linkedUrl.getD hs.linkedUrl
    urlTarget := d.urlTarget.getD hs.urlTarget }

/-- Replace the element at index `i` (no change when out of range). -/
def listModify {α : Type} : Nat → (α → α) → List α → List α
  | _, _, [] => []
  | 0, f, a :: as => f a :: as
  | n + 1, f, a :: as => a :: listModify n f as

/-- `updateHotspotDetails` from `useMapNavigation.ts` (lines 440-472). -/
def updateHotspotDetails (targetMapId hotspotIdToUpdate : String)
    (newDetails : HotspotDetails) (s : NavState) : NavState :=
  match alGet s.graph targetMapId with
  | Option.none =>
    { s with error := some ("Cannot update hotspot: Map definition or hotspots array not found for ID "
        ++ targetMapId) }
  | some mapDef =>
    match mapDef.hotspots.findIdx? (fun hs => hs.id == some hotspotIdToUpdate) with
    | Option.none =>
      { s with error := some ("Cannot update hotspot: Hotspot with ID " ++ hotspotIdToUpdate
          ++ " not found in map " ++ targetMapId) }
    | some hotspotIndex =>
      { s with
        graph := alInsert s.graph targetMapId
          { mapDef with hotspots :=
              listModify hotspotIndex (fun hs => applyDetails hs newDetails) mapDef.hotspots }
        error := Option.none }

/-- A pixel- or percentage-space rectangle (`Rect` in
`MapImageViewer.tsx`). -/
structure Rect where
  x : ℚ
  y : ℚ
  width : ℚ
  height : ℚ
deriving DecidableEq, Repr

/-- JavaScript `Math.min` on (non-NaN) numbers. -/
def mathMin (a b : ℚ) : ℚ := if a ≤ b then a else b

/-- JavaScript `Math.max` on (non-NaN) numbers. -/
def mathMax (a b : ℚ) : ℚ := if a ≤ b then b else a

/-- The drag-commit computation of `handleMouseUp` in
`src/components/MapImageViewer.tsx` (lines 118-175): given the drawn
container-relative rectangle, the current view transform
(`scale`, `positionX`, `positionY`), the natural image dimensions and
the container offset dimensions, it returns the percentage rectangle
delivered to `onHotspotDrawn`, or `none` when the drag is discarded
(below the 1-pixel threshold, or image dimensions unavailable). -/
def handleMouseUp (currentRect : Rect) (scale positionX positionY : ℚ)
    (naturalW naturalH offsetW offsetH : ℚ) : Option Rect :=
  if currentRect.width > 1 ∧ currentRect.height > 1 then
    if naturalW = 0 ∨ naturalH = 0 then Option.none
    else
      let imageNaturalWidth := naturalW * (offsetW / naturalW)
      let imageNaturalHeight := naturalH * (offsetH / naturalH)
      let imageX := (currentRect.x - positionX) / scale
      let imageY := (currentRect.y - positionY) / scale
      let imageWidth := currentRect.width / scale
      let imageHeight := currentRect.height / scale
      let rx := mathMax 0 (mathMin ((imageX / imageNaturalWidth) * 100) 100)
      let ry := mathMax 0 (mathMin ((imageY / imageNaturalHeight) * 100) 100)
      let rw := mathMax (1 / 10) (mathMin ((imageWidth / imageNaturalWidth) * 100) (100 - rx))
      let rh := mathMax (1 / 10) (mathMin ((imageHeight / imageNaturalHeight) * 100) (100 - ry))
      some ⟨rx, ry, rw, rh⟩
  else Option.none

/-- JSON values, as produced by `JSON.parse`. -/
inductive Jsval where
  | null
  | bool (b : Bool)
  | num (q : ℚ)
  | str (s : String)
  | arr (elems : List Jsval)
  | obj (fields : List (String × Jsval))

/-- JavaScript truthiness of a `Jsval`. -/
def jsTruthy : Jsval → Bool
  | Jsval.null => false
  | Jsval.bool b => b
  | Jsval.num q => !(q == 0)
  | Jsval.str s => !(s == "")
  | Jsval.arr _ => true
  | Jsval.obj _ => true

/-- JavaScript truthiness of a possibly-undefined `Jsval`. -/
def truthyO : Option Jsval → Bool
  | Option.none => false
  | some v => jsTruthy v

/-- Read a property value at its TypeScript-declared string type.  A
present field whose runtime value is not a string is modelled as
absent. -/
def asStr : Option Jsval → Option String
  | some (Jsval.str s) => some s
  | _ => Option.none

/-- Read a property value at its TypeScript-declared number type. -/
def asNum : Option Jsval → Option ℚ
  | some (Jsval.num q) => some q
  | _ => Option.none

/-- JavaScript strict comparison `v === lit` with a string literal. -/
def isStrVal (o : Option Jsval) (t : String) : Bool :=
  match o with
  | some (Jsval.str s) => s == t
  | _ => false

/-- JavaScript property access `v[k]`: throws a `TypeError` on `null`,
yields the field on objects, `undefined` otherwise (the accessed keys
are never properties of arrays, strings, numbers or booleans). -/
def getProp : Jsval → String → Except String (Option Jsval)
  | Jsval.null, _ => Except.error "TypeError: Cannot read properties of null"
  | Jsval.obj fields, k => Except.ok (alGet fields k)
  | _, _ => Except.ok Option.none

/-- Decimal digit test. -/
def isDigitChar (c : Char) : Bool := 48 ≤ c.toNat && c.toNat ≤ 57

/-- Numeric value of a decimal digit string. -/
def natOfDigits (l : List Char) : Nat :=
  l.foldl (fun a c => a * 10 + (c.toNat - 48)) 0

/-- Is `s` a canonical array-index key (an integer below 2^32 - 1 in
canonical decimal form)?  Such keys are enumerated first, in ascending
numeric order, by JavaScript. -/
def isArrayIndexKey (s : String) : Bool :=
  match s.data with
  | [] => false
  | c :: cs =>
    (c :: cs).all isDigitChar && (!(c == '0') || cs.isEmpty)
      && decide (natOfDigits (c :: cs) < 4294967295)

/-- Numeric value used to order array-index keys. -/
def keyNat (s : String) : Nat := natOfDigits s.data

/-- `Object.keys` / `for..in` enumeration order of a string-keyed
object: array-index keys first in ascending numeric order, then the
remaining keys in insertion order. -/
def jsOwnKeys {α : Type} (fields : List (String × α)) : List String :=
  let ks := fields.map (fun kv => kv.1)
  (List.insertionSort (fun a b => keyNat a ≤ keyNat b) (ks.filter isArrayIndexKey))
    ++ ks.filter (fun k => !(isArrayIndexKey k))

/-- The `for (const mapId in data)` enumeration together with the
`data[mapId]` lookups: key/value pairs of an object in enumeration
order, index/element pairs of an array, index/character pairs of a
string, nothing for the other primitives. -/
def jsEnumerate : Jsval → List (String × Jsval)
  | Jsval.obj fields =>
    (jsOwnKeys fields).filterMap (fun k => (alGet fields k).map (fun v => (k, v)))
  | Jsval.arr elems => elems.enum.map (fun p => (toString p.1, p.2))
  | Jsval.str s => s.data.enum.map (fun p => (toString p.1, Jsval.str p.2.toString))
  | _ => []

/-- Effectful `List.mapM` specialised to `Except` (a thrown `TypeError`
propagates out of the loop, discarding the partial result). -/
def mapMExcept {α β : Type} (f : α → Except String β) : List α → Except String (List β)
  | [] => Except.ok []
  | a :: as =>
    match f a with
    | Except.error e => Except.error e
    | Except.ok b =>
      match mapMExcept f as with
      | Except.error e => Except.error e
      | Except.ok bs => Except.ok (b :: bs)

/-- The hotspot part of `normalizeMapData` (lines 97-126): determines
the link type (inferring it from a present `link_to_map_id` or
`linkedUrl` when absent), copies the positional fields as they are,
and keeps only the payload of the determined variant. -/
def normalizeHotspot (hs : Jsval) : Except String Hotspot :=
  match getProp hs "linkType" with
  | Except.error e => Except.error e
  | Except.ok ltRaw =>
    match getProp hs "link_to_map_id" with
    | Except.error e => Except.error e
    | Except.ok lmiRaw =>
      match getProp hs "linkedUrl" with
      | Except.error e => Except.error e
      | Except.ok luRaw =>
        match getProp hs "id", getProp hs "x", getProp hs "y",
              getProp hs "width", getProp hs "height", getProp hs "title",
              getProp hs "urlTarget" with
        | Except.ok idRaw, Except.ok xRaw, Except.ok yRaw, Except.ok wRaw,
          Except.ok hRaw, Except.ok titleRaw, Except.ok utRaw =>
          let determinedLinkType : Option Jsval :=
            if truthyO ltRaw then ltRaw
            else if truthyO lmiRaw then some (Jsval.str "map")
            else if truthyO luRaw then some (Jsval.str "url")
            else ltRaw
          Except.ok
            { id := asStr idRaw
              x := asNum xRaw
              y := asNum yRaw
              width := asNum wRaw
              height := asNum hRaw
              title := asStr titleRaw
              linkType := asStr determinedLinkType
              link_to_map_id :=
                if isStrVal determinedLinkType "map" then asStr lmiRaw else Option.none
              linkedUrl :=
                if isStrVal determinedLinkType "url" then asStr luRaw else Option.none
              urlTarget :=
                if isStrVal determinedLinkType "url" then
                  (if truthyO utRaw then asStr utRaw else some "_blank")
                else Option.none }
        | _, _, _, _, _, _, _ =>
          Except.error "TypeError: Cannot read properties of null"

/-- `(mapDef.hotspots || []).map`: a missing or falsy `hotspots` field
yields the empty list; a truthy non-array has no `.map` and throws. -/
def jsHotspotsList (hv : Option Jsval) : Except String (List Jsval) :=
  match hv with
  | Option.none => Except.ok []
  | some jv =>
    if jsTruthy jv then
      match jv with
      | Jsval.arr l => Except.ok l
      | _ => Except.error "TypeError: hotspots.map is not a function"
    else Except.ok []

/-- One node of `normalizeMapData` (lines 95-127). -/
def normalizeNode (v : Jsval) : Except String MapDefinition :=
  match getProp v "imageUrl" with
  | Except.error e => Except.error e
  | Except.ok imageUrlRaw =>
    match getProp v "hotspots" with
    | Except.error e => Except.error e
    | Except.ok hotspotsRaw =>
      match jsHotspotsList hotspotsRaw with
      | Except.error e => Except.error e
      | Except.ok l =>
        match mapMExcept normalizeHotspot l with
        | Except.error e => Except.error e
        | Except.ok hsl =>
          Except.ok
            { imageUrl := asStr imageUrlRaw
              hotspots := hsl.filter (fun nh => truthyS nh.linkType) }

/-- `normalizeMapData` from `useMapNavigation.ts` (lines 90-131). -/
def normalizeMapData (data : Jsval) : Except String MapCollection :=
  match mapMExcept
      (fun kv => match normalizeNode kv.2 with
        | Except.error e => Except.error e
        | Except.ok nd => Except.ok (kv.1, nd))
      (jsEnumerate data) with
  | Except.error e => Except.error e
  | Except.ok nodes => Except.ok (nodes.foldl (fun acc kv => alInsert acc kv.1 kv.2) [])

/-- `loadNewMapData` from `useMapNavigation.ts` (lines 408-438).  Its
input is the result of `JSON.parse` on the supplied string (`none`
when parsing throws). -/
def loadNewMapData (parsed : Option Jsval) (s : NavState) : NavState :=
  match parsed with
  | Option.none => { s with error := some "Failed to load new data: Invalid JSON format." }
  | some d =>
    match normalizeMapData d with
    | Except.error _ =>
      -- a TypeError thrown inside normalizeMapData is caught by the same catch
      { s with error := some "Failed to load new data: Invalid JSON format." }
    | Except.ok g =>
      if 0 < (jsOwnKeys g).length then
        match (jsOwnKeys g).head? with
        | Option.none =>
          { s with error := some "Failed to load new data: Invalid structure or missing root map." }
        | some newRootId =>
          if newRootId = "" then
            { s with error := some "Failed to load new data: Invalid structure or missing root map." }
          else
            match alGet g newRootId with
            | Option.none =>
              { s with error := some "Failed to load new data: Invalid structure or missing root map." }
            | some _ =>
              { graph := g
                currentMapId := some newRootId
                history := []
                error := Option.none
                editAction := EditAction.none
                mapViewTransforms := [] }
      else { s with error := some "Failed to load new data: Invalid JSON structure." }

/-!
Concrete instances used by the witnesses and counterexamples below.
-/

/-- A caller-supplied map-link hotspot whose target id `b` already
exists (claim C1). -/
def hotspotDup : Hotspot :=
  ⟨some "h2", some 1, some 1, some 2, some 2, Option.none, some "map", some "b",
    Option.none, Option.none⟩

/-- A two-node graph `a`, `b` in its initial navigation state. -/
def stateDup : NavState :=
  { graph := [("a", ⟨some "a.png", []⟩), ("b", ⟨some "b.png", []⟩)]
    currentMapId := some "a", history := [], error := Option.none
    editAction := EditAction.none, mapViewTransforms := [] }

/-- A map-link hotspot whose `link_to_map_id` is the empty string
(claim C3). -/
def hotspotEmptyLink : Hotspot :=
  ⟨some "h1", some 1, some 1, some 2, some 2, Option.none, some "map", some "",
    Option.none, Option.none⟩

/-- A graph containing a node keyed by the empty string, linked only by
`hotspotEmptyLink`. -/
def stateEmptyLink : NavState :=
  { graph := [("", ⟨some "e.png", []⟩), ("m", ⟨some "m.png", [hotspotEmptyLink]⟩)]
    currentMapId := some "m", history := [], error := Option.none
    editAction := EditAction.none, mapViewTransforms := [] }

/-- The only hotspot linking to map `X` (claim C3 witness). -/
def hotspotOrphan : Hotspot :=
  ⟨some "h1", some 1, some 1, some 2, some 2, Option.none, some "map", some "X",
    Option.none, Option.none⟩

/-- A graph where deleting `hotspotOrphan` orphans node `X`. -/
def stateOrphan : NavState :=
  { graph := [("m", ⟨some "m.png", [hotspotOrphan]⟩), ("X", ⟨some "x.png", []⟩)]
    currentMapId := some "m", history := [], error := Option.none
    editAction := EditAction.none, mapViewTransforms := [] }

/-- A state whose `currentMapId` is no longer a key of the graph
(reachable: the current map can be deleted by orphan cleanup), used
against claim C4. -/
def stateGhostCurrent : NavState :=
  { graph := [("b", ⟨some "b.png", []⟩)]
    currentMapId := some "a", history := [], error := Option.none
    editAction := EditAction.none, mapViewTransforms := [] }

/-- A healthy two-node state with non-empty history (claim C4 witness). -/
def stateNav : NavState :=
  { graph := [("a", ⟨some "a.png", []⟩), ("b", ⟨some "b.png", []⟩)]
    currentMapId := some "a", history := ["r"], error := Option.none
    editAction := EditAction.none, mapViewTransforms := [] }

/-- A map-link hotspot about to be switched to a url link (claim C5). -/
def hotspotMapLink : Hotspot :=
  ⟨some "h1", some 10, some 10, some 20, some 20, Option.none, some "map", some "x",
    Option.none, Option.none⟩

/-- Graph for the claim C5 failing input. -/
def stateEdit : NavState :=
  { graph := [("m", ⟨some "m.png", [hotspotMapLink]⟩), ("x", ⟨some "x.png", []⟩)]
    currentMapId := some "m", history := [], error := Option.none
    editAction := EditAction.none, mapViewTransforms := [] }

/-- Partial update switching the link type to `url` without explicitly
clearing `link_to_map_id` (claim C5 failing input). -/
def detailsSwitchToUrl : HotspotDetails :=
  ⟨Option.none, some (some "url"), Option.none, some (some "https://example.com"),
    some (some "_blank")⟩

/-- An external document whose only hotspot has a `link_to_map_id` but
no `id`, `x`, `y`, `width` or `height` (claim C6). -/
def rawMissingId : Jsval :=
  Jsval.obj [("m", Jsval.obj
    [("imageUrl", Jsval.str "m.png"),
     ("hotspots", Jsval.arr [Jsval.obj [("link_to_map_id", Jsval.str "z")]])])]

/-- The hotspot as it comes out of the normalizer on `rawMissingId`:
kept, with `id`, `x`, `y`, `width` and `height` all absent. -/
def hotspotSurvivor : Hotspot :=
  ⟨Option.none, Option.none, Option.none, Option.none, Option.none,
    Option.none, some "map", some "z", Option.none, Option.none⟩

/-- The normalized output of `rawMissingId`: the hotspot survives with
`id = none`. -/
def normMissingId : MapCollection :=
  [("m", { imageUrl := some "m.png", hotspots := [hotspotSurvivor] })]

/-- A loaded state that claim C7 expects `loadNewMapData` to leave
untouched on a non-object input. -/
def stateLoaded : NavState :=
  { graph := [("home", ⟨some "h.png", []⟩)]
    currentMapId := some "home", history := ["r0"], error := Option.none
    editAction := EditAction.adding, mapViewTransforms := [] }

/-- The graph `loadNewMapData` actually builds from the JSON document
`"ab"` (a plain string): one empty node per character index. -/
def strDocGraph : MapCollection := [("0", ⟨Option.none, []⟩), ("1", ⟨Option.none, []⟩)]

/-- A state whose history top `a` is no longer a key of the graph
(claim C8). -/
def stateCorruptHistory : NavState :=
  { graph := [("b", ⟨some "b.png", []⟩)]
    currentMapId := some "b", history := ["a"], error := Option.none
    editAction := EditAction.none, mapViewTransforms := [] }

/-- A state from which `navigateBack` succeeds (claim C8 witness). -/
def stateBackOk : NavState :=
  { graph := [("a", ⟨some "a.png", []⟩), ("b", ⟨some "b.png", []⟩)]
    currentMapId := some "b", history := ["a"], error := Option.none
    editAction := EditAction.none, mapViewTransforms := [] }

/-- A map-link hotspot pointing at a not-yet-existing map id (claim
C10). -/
def hotspotNoUrl : Hotspot :=
  ⟨some "h9", some 1, some 1, some 2, some 2, Option.none, some "map", some "newmap",
    Option.none, Option.none⟩

/-- One-node graph that claim C10 adds `hotspotNoUrl` to. -/
def stateAddTarget : NavState :=
  { graph := [("t", ⟨some "t.png", []⟩)]
    currentMapId := some "t", history := [], error := Option.none
    editAction := EditAction.none, mapViewTransforms := [] }

/-!
Helper lemmas about the association-list primitives and the clamped
geometry, shared by several claim theorems.
-/
theorem alGet_alInsert_self {α : Type} (m : List (String × α)) (k : String) (v : α) :
    alGet (alInsert m k v) k = some v := by
  induction m with
  | nil => simp [alGet, alInsert]
  | cons hd tl ih =>
    obtain ⟨k', v'⟩ := hd
    by_cases h : k' = k
    · simp [alGet, alInsert, h]
    · simp [alGet, alInsert, h, ih]

theorem alGet_alInsert_ne {α : Type} (m : List (String × α)) (k k' : String) (v : α)
    (h : k' ≠ k) : alGet (alInsert m k v) k' = alGet m k' := by
  induction m with
  | nil => simp [alGet, alInsert, Ne.symm h]
  | cons hd tl ih =>
    obtain ⟨k₀, v₀⟩ := hd
    by_cases h0 : k₀ = k
    · subst h0
      simp [alGet, alInsert, Ne.symm h]
    · by_cases h1 : k₀ = k'
      · simp [alGet, alInsert, h0, h1, h]
      · simp [alGet, alInsert, h0, h1, ih]

theorem alGet_alErase_self {α : Type} (m : List (String × α)) (k : String) :
    alGet (alErase m k) k = Option.none := by
  induction m with
  | nil => simp [alGet, alErase]
  | cons hd tl ih =>
    obtain ⟨k₀, v₀⟩ := hd
    by_cases h : k₀ = k
    · simp [alErase, h, ih]
    · simp [alGet, alErase, h, Ne.symm h, ih]

theorem alGet_alErase_ne {α : Type} (m : List (String × α)) (k k' : String)
    (h : k' ≠ k) : alGet (alErase m k) k' = alGet m k' := by
  induction m with
  | nil => simp [alErase]
  | cons hd tl ih =>
    obtain ⟨k₀, v₀⟩ := hd
    by_cases h0 : k₀ = k
    · subst h0
      simp [alGet, alErase, Ne.symm h, ih]
    · simp [alGet, alErase, h0, ih]


theorem le_mathMax_left (a b : ℚ) : a ≤ mathMax a b := by
  unfold mathMax; split
  · assumption
  · exact le_refl a

theorem le_mathMax_right (a b : ℚ) : b ≤ mathMax a b := by
  unfold mathMax; split
  · exact le_refl b
  · exact (not_le.mp (by assumption)).le

theorem mathMax_le {a b c : ℚ} (h1 : a ≤ c) (h2 : b ≤ c) : mathMax a b ≤ c := by
  unfold mathMax; split <;> assumption

theorem mathMin_le_right (a b : ℚ) : mathMin a b ≤ b := by
  unfold mathMin; split
  · assumption
  · exact le_refl b

theorem clampPos_bounds (A : ℚ) :
    0 ≤ mathMax 0 (mathMin A 100) ∧ mathMax 0 (mathMin A 100) ≤ 100 := by
  unfold mathMax mathMin; split_ifs <;> constructor <;> linarith

theorem clampDim_bounds (B x : ℚ) (hx : x ≤ 100) :
    1 / 10 ≤ mathMax (1 / 10) (mathMin B (100 - x))
    ∧ x + mathMax (1 / 10) (mathMin B (100 - x)) ≤ 100 + 1 / 10
    ∧ (x ≤ 100 - 1 / 10 → x + mathMax (1 / 10) (mathMin B (100 - x)) ≤ 100) := by
  unfold mathMax mathMin; split_ifs <;>
    refine ⟨by linarith, by linarith, fun h => by linarith⟩

/-!
Claim C9.
-/

/-- Claim C9: the incremental graph mutations `addHotspotAndMapDefinition`,
`deleteHotspot` and `updateHotspotDetails` never modify the navigation
state: whether they succeed or fail, the history stack and the current
map id are exactly the same after the operation as before. -/
theorem mutations_preserve_navigation (t hid url : String) (h : Hotspot)
    (d : HotspotDetails) (s : NavState) :
    ((addHotspotAndMapDefinition t h url s).history = s.history
      ∧ (addHotspotAndMapDefinition t h url s).currentMapId = s.currentMapId)
    ∧ ((deleteHotspot t hid s).history = s.history
      ∧ (deleteHotspot t hid s).currentMapId = s.currentMapId)
    ∧ ((updateHotspotDetails t hid d s).history = s.history
      ∧ (updateHotspotDetails t hid d s).currentMapId = s.currentMapId) := by
  refine ⟨⟨?_, ?_⟩, ⟨?_, ?_⟩, ⟨?_, ?_⟩⟩
  · unfold addHotspotAndMapDefinition; dsimp only; repeat' split
    all_goals rfl
  · unfold addHotspotAndMapDefinition; dsimp only; repeat' split
    all_goals rfl
  · unfold deleteHotspot; dsimp only; repeat' split
    all_goals rfl
  · unfold deleteHotspot; dsimp only; repeat' split
    all_goals rfl
  · unfold updateHotspotDetails; repeat' split
    all_goals rfl
  · unfold updateHotspotDetails; repeat' split
    all_goals rfl

/-!
Claim C10.
-/

/-- Claim C10: with an existing target map `t`, a map-link hotspot whose
non-empty `link_to_map_id` is not yet a key, and an empty
`newMapImageUrl`, the hotspot is appended to `t` but no new map node is
created and no error is surfaced, leaving a dangling map link. -/
theorem addHotspot_without_url_appends_dangling (t X : String) (h : Hotspot)
    (s : NavState) (d : MapDefinition)
    (ht : alGet s.graph t = some d)
    (hlt : h.linkType = some "map")
    (hlink : h.link_to_map_id = some X)
    (hX : X ≠ "")
    (hnot : alGet s.graph X = Option.none) :
    alGet (addHotspotAndMapDefinition t h "" s).graph t
        = some { d with hotspots := d.hotspots ++ [h] }
    ∧ alGet (addHotspotAndMapDefinition t h "" s).graph X = Option.none
    ∧ (addHotspotAndMapDefinition t h "" s).error = Option.none := by
  have hXt : X ≠ t := fun e => by rw [e, ht] at hnot; exact Option.noConfusion hnot
  unfold addHotspotAndMapDefinition
  rw [ht]
  dsimp only
  rw [if_neg (by simp)]
  refine ⟨?_, ?_, rfl⟩
  · exact alGet_alInsert_self ..
  · rw [alGet_alInsert_ne _ _ _ _ hXt]
    exact hnot

/-- Witness for the claim C10 theorem, at the concrete state
`stateAddTarget` and hotspot `hotspotNoUrl`. -/
theorem addHotspot_without_url_appends_dangling_witness :
    alGet (addHotspotAndMapDefinition "t" hotspotNoUrl "" stateAddTarget).graph "t"
        = some { imageUrl := some "t.png", hotspots := [hotspotNoUrl] }
    ∧ alGet (addHotspotAndMapDefinition "t" hotspotNoUrl "" stateAddTarget).graph "newmap"
        = Option.none
    ∧ (addHotspotAndMapDefinition "t" hotspotNoUrl "" stateAddTarget).error = Option.none :=
  addHotspot_without_url_appends_dangling "t" "newmap" hotspotNoUrl stateAddTarget
    ⟨some "t.png", []⟩ (by decide) (by decide) (by decide) (by decide) (by decide)

/-!
Claim C1.
-/

/-- Counterexample to claim C1: with target `a`, hotspot `hotspotDup`
(linking to the already existing map `b`) and a non-empty image url,
`addHotspotAndMapDefinition` surfaces the duplicate-id error but the
graph IS mutated: the hotspot is appended to `a`, contradicting the
claim that the graph is left unchanged. -/
theorem addHotspot_duplicate_mutates_cex :
    (addHotspotAndMapDefinition "a" hotspotDup "img.png" stateDup).error
        = some ("Consistency Error: Map ID " ++ "b" ++ " already exists. Cannot add new definition.")
    ∧ alGet (addHotspotAndMapDefinition "a" hotspotDup "img.png" stateDup).graph "a"
        = some ⟨some "a.png", [hotspotDup]⟩
    ∧ (addHotspotAndMapDefinition "a" hotspotDup "img.png" stateDup).graph ≠ stateDup.graph := by
  decide

/-- Claim C1 (amended): when the target map exists, the hotspot is a
map link with a non-empty `link_to_map_id` that is already a key, and
the new image url is non-empty, the operation surfaces a duplicate-id
error and creates or overwrites no map node, but it DOES append the
hotspot to the target map's hotspot list. -/
theorem addHotspot_duplicate_spec (t X url k : String) (h : Hotspot) (s : NavState)
    (d : MapDefinition)
    (ht : alGet s.graph t = some d)
    (hlt : h.linkType = some "map")
    (hlink : h.link_to_map_id = some X)
    (hX : X ≠ "") (hurl : url ≠ "")
    (hdup : (alGet s.graph X).isSome = true)
    (hk : k ≠ t) :
    (addHotspotAndMapDefinition t h url s).error
        = some ("Consistency Error: Map ID " ++ X ++ " already exists. Cannot add new definition.")
    ∧ alGet (addHotspotAndMapDefinition t h url s).graph t
        = some { d with hotspots := d.hotspots ++ [h] }
    ∧ alGet (addHotspotAndMapDefinition t h url s).graph k = alGet s.graph k := by
  unfold addHotspotAndMapDefinition
  rw [ht]
  dsimp only
  rw [if_pos ⟨hlt, by rw [hlink]; simpa [truthyS] using hX, hurl⟩, hlink]
  dsimp only
  have hdup1 : (alGet (alInsert s.graph t { d with hotspots := d.hotspots ++ [h] }) X).isSome = true := by
    by_cases hXt : X = t
    · subst hXt; rw [alGet_alInsert_self]; rfl
    · rw [alGet_alInsert_ne _ _ _ _ hXt]; exact hdup
  rw [if_pos hdup1]
  refine ⟨rfl, ?_, ?_⟩
  · exact alGet_alInsert_self ..
  · exact alGet_alInsert_ne _ _ _ _ hk

/-- Witness for the amended claim C1 theorem at the concrete input of
the counterexample. -/
theorem addHotspot_duplicate_spec_witness :
    (addHotspotAndMapDefinition "a" hotspotDup "img.png" stateDup).error
        = some ("Consistency Error: Map ID " ++ "b" ++ " already exists. Cannot add new definition.")
    ∧ alGet (addHotspotAndMapDefinition "a" hotspotDup "img.png" stateDup).graph "a"
        = some { imageUrl := some "a.png", hotspots := [hotspotDup] }
    ∧ alGet (addHotspotAndMapDefinition "a" hotspotDup "img.png" stateDup).graph "b"
        = alGet stateDup.graph "b" :=
  addHotspot_duplicate_spec "a" "b" "img.png" "b" hotspotDup stateDup
    ⟨some "a.png", []⟩ (by decide) (by decide) (by decide) (by decide) (by decide)
    (by decide) (by decide)

/-!
Claim C4.
-/

/-- Counterexample to claim C4: from a navigation state whose current
map id `a` is not a key of the graph (reachable, since orphan cleanup
can delete the currently displayed map), `navigateToChild "b"` then
`navigateBack` ends on `b` with history `["a"]`, not back on `a` with
the original empty history. -/
theorem navigate_roundtrip_cex :
    (navigateBack (navigateToChild "b" stateGhostCurrent)).currentMapId = some "b"
    ∧ (navigateBack (navigateToChild "b" stateGhostCurrent)).currentMapId ≠ some "a"
    ∧ (navigateBack (navigateToChild "b" stateGhostCurrent)).history = ["a"]
    ∧ stateGhostCurrent.history = [] := by decide

/-- Claim C4 (amended): provided the starting current map id `a` is
non-empty (an empty-string current id fails the `if (!currentMapId)`
truthiness guard and the forward step early-returns) and is itself
still a key of the graph, `navigateToChild b` followed by
`navigateBack` (graph unchanged in between) restores `currentMapId = a`
and leaves the history exactly as it was. -/
theorem navigate_roundtrip_spec (s : NavState) (a b : String) (da db : MapDefinition)
    (hcur : s.currentMapId = some a)
    (hane : a ≠ "")
    (ha : alGet s.graph a = some da)
    (hb : alGet s.graph b = some db)
    (h1 : strContainsSub b "://" = false)
    (h2 : strContainsSub b "/" = false) :
    (navigateBack (navigateToChild b s)).currentMapId = some a
    ∧ (navigateBack (navigateToChild b s)).history = s.history := by
  unfold navigateToChild
  rw [h1, h2, hcur, hb]
  simp only [Bool.or_self, Bool.false_eq_true, if_false]
  rw [if_neg hane]
  unfold navigateBack
  simp only [List.length_append, List.length_cons, List.length_nil]
  rw [List.getLast?_concat]
  simp only [ha, List.dropLast_concat]
  constructor <;> simp

/-- Witness for the amended claim C4 theorem at `stateNav`. -/
theorem navigate_roundtrip_spec_witness :
    (navigateBack (navigateToChild "b" stateNav)).currentMapId = some "a"
    ∧ (navigateBack (navigateToChild "b" stateNav)).history = stateNav.history :=
  navigate_roundtrip_spec stateNav "a" "b" ⟨some "a.png", []⟩ ⟨some "b.png", []⟩
    (by decide) (by decide) (by decide) (by decide) (by decide) (by decide)

/-!
Claim C8.
-/

/-- Counterexample to claim C8: with history `["a"]` where `a` is no
longer a key of the graph, the claim says the top entry is popped
before the corrupted-history error; the code surfaces the error but
leaves the history untouched (still `["a"]`). -/
theorem navigateBack_corrupt_keeps_top_cex :
    (navigateBack stateCorruptHistory).history = ["a"]
    ∧ (navigateBack stateCorruptHistory).currentMapId = some "b"
    ∧ (navigateBack stateCorruptHistory).error ≠ Option.none := by decide

/-- Claim C8 (amended): `navigateBack` on an empty history changes no
state and surfaces no error.  On a non-empty history the top entry is
only peeked: if it is no longer a key of the graph, a history-corrupted
error is surfaced and neither `currentMapId` nor the history changes;
otherwise the entry is popped and becomes `currentMapId`. -/
theorem navigateBack_spec (s : NavState) (H : List String) (p : String) (d : MapDefinition) :
    (s.history = [] → navigateBack s = s)
    ∧ (s.history = H ++ [p] → alGet s.graph p = Option.none →
        navigateBack s = { s with error := some ("Error navigating back: Parent map ID "
            ++ p ++ " from history not found in current map data. History might be corrupted.") })
    ∧ (s.history = H ++ [p] → alGet s.graph p = some d →
        navigateBack s = { s with error := Option.none, currentMapId := some p, history := H }) := by
  refine ⟨?_, ?_, ?_⟩
  · intro hh
    unfold navigateBack
    rw [hh]
    rfl
  · intro hh hp
    unfold navigateBack
    rw [hh, List.getLast?_concat]
    dsimp only
    rw [hp]
    simp
  · intro hh hp
    unfold navigateBack
    rw [hh, List.getLast?_concat]
    dsimp only
    rw [hp, List.dropLast_concat]
    simp

/-- Witness for the amended claim C8 theorem: a successful back
navigation from `stateBackOk`. -/
theorem navigateBack_spec_witness :
    navigateBack stateBackOk
      = { stateBackOk with error := Option.none, currentMapId := some "a", history := [] } :=
  (navigateBack_spec stateBackOk [] "a" ⟨some "a.png", []⟩).2.2 (by decide) (by decide)

/-!
Claim C5.
-/

/-- Claim C5 (code-bug evidence): evaluating `updateHotspotDetails` at
the failing input — switching `hotspotMapLink` from a map link to a
url link without the caller explicitly clearing `link_to_map_id` —
produces a hotspot carrying BOTH `link_to_map_id` and `linkedUrl`,
violating the spec invariant that the previous variant's fields are
cleared. -/
theorem updateHotspot_switch_keeps_stale_link :
    alGet (updateHotspotDetails "m" "h1" detailsSwitchToUrl stateEdit).graph "m"
      = some ⟨some "m.png",
          [⟨some "h1", some 10, some 10, some 20, some 20, Option.none, some "url",
            some "x", some "https://example.com", some "_blank"⟩]⟩
    ∧ (updateHotspotDetails "m" "h1" detailsSwitchToUrl stateEdit).error = Option.none := by
  decide

/-!
Claim C3.
-/

theorem mem_alErase {α : Type} (m : List (String × α)) (k : String) (kv : String × α)
    (h : kv ∈ alErase m k) : kv ∈ m := by
  induction m with
  | nil => simpa [alErase] using h
  | cons hd tl ih =>
    obtain ⟨k₀, v₀⟩ := hd
    by_cases h0 : k₀ = k
    · simp only [alErase, if_pos h0] at h
      exact List.mem_cons_of_mem _ (ih h)
    · simp only [alErase, if_neg h0, List.mem_cons] at h
      rcases h with h | h
      · exact h ▸ List.mem_cons_self _ _
      · exact List.mem_cons_of_mem _ (ih h)

theorem linksTo_alErase {g : MapCollection} {k X : String}
    (h : linksTo (alErase g k) X = true) : linksTo g X = true := by
  unfold linksTo at h ⊢
  rw [List.any_eq_true] at h ⊢
  obtain ⟨kv, hmem, hp⟩ := h
  exact ⟨kv, mem_alErase g k kv hmem, hp⟩

theorem filter_ne_length_of_find? {p : α → Bool} {l : List α} {a : α}
    (h : l.find? p = some a) :
    (l.filter (fun x => !(p x))).length ≠ l.length := by
  intro heq
  have hall := List.filter_length_eq_length.mp heq
  have := hall a (List.mem_of_find?_eq_some h)
  rw [List.find?_some h] at this
  simp at this

/-- Key lookups survive the hotspot-removal rewrite of the target node. -/
theorem alGet_isSome_after_removal (s : NavState) (m : String) (d d' : MapDefinition)
    (hm : alGet s.graph m = some d) (q : String) :
    (alGet (alInsert s.graph m d') q).isSome = (alGet s.graph q).isSome := by
  by_cases hq : q = m
  · subst hq
    rw [alGet_alInsert_self, hm]
    rfl
  · rw [alGet_alInsert_ne _ _ _ _ hq]

/-- Claim C3 (amended): provided the deleted map-link hotspot's target
id `X` is non-empty (the code's truthiness guard skips the cleanup for
an empty-string id) and the deleted hotspot is the first hotspot with
its id in the target map, `deleteHotspot` performs the single-level
orphan cleanup: if after the removal no hotspot anywhere still links
to `X`, node `X` is no longer a key of the resulting graph; if some
remaining hotspot still links to `X`, node `X` is kept; and no key
other than `X` is added or removed. -/
theorem deleteHotspot_orphan_spec (s : NavState) (m hid X k : String)
    (d : MapDefinition) (h : Hotspot)
    (hm : alGet s.graph m = some d)
    (hfind : d.hotspots.find? (fun hs => hs.id == some hid) = some h)
    (hlt : h.linkType = some "map")
    (hlink : h.link_to_map_id = some X)
    (hX : X ≠ "")
    (hk : k ≠ X) :
    (linksTo (deleteHotspot m hid s).graph X = false →
        alGet (deleteHotspot m hid s).graph X = Option.none)
    ∧ (linksTo (deleteHotspot m hid s).graph X = true →
        (alGet (deleteHotspot m hid s).graph X).isSome = (alGet s.graph X).isSome)
    ∧ (alGet (deleteHotspot m hid s).graph k).isSome = (alGet s.graph k).isSome := by
  have hlen := filter_ne_length_of_find? hfind
  have hg1 := alGet_isSome_after_removal s m d
    { d with hotspots := d.hotspots.filter (fun hs => !(hs.id == some hid)) } hm
  unfold deleteHotspot
  rw [hm]
  dsimp only
  rw [hfind]
  dsimp only
  rw [hlt]
  rw [if_pos rfl, hlink]
  dsimp only
  rw [if_neg hlen]
  by_cases hsome : (alGet (alInsert s.graph m
      { d with hotspots := d.hotspots.filter (fun hs => !(hs.id == some hid)) }) X).isSome = true
  · rw [if_pos ⟨hX, hsome⟩]
    by_cases hstill : linksTo (alInsert s.graph m
        { d with hotspots := d.hotspots.filter (fun hs => !(hs.id == some hid)) }) X = true
    · rw [if_pos hstill]
      refine ⟨fun hfalse => ?_, fun _ => hg1 X, hg1 k⟩
      rw [hstill] at hfalse
      cases hfalse
    · rw [if_neg hstill]
      refine ⟨fun _ => alGet_alErase_self _ _, fun htrue => ?_, ?_⟩
      · exact absurd (linksTo_alErase htrue) hstill
      · rw [alGet_alErase_ne _ _ _ hk]
        exact hg1 k
  · rw [if_neg (fun hc => hsome hc.2)]
    refine ⟨fun _ => ?_, fun _ => hg1 X, hg1 k⟩
    cases hgx : alGet (alInsert s.graph m
        { d with hotspots := d.hotspots.filter (fun hs => !(hs.id == some hid)) }) X with
    | none => rfl
    | some v => rw [hgx] at hsome; simp at hsome

/-- Witness for the amended claim C3 theorem: deleting the only hotspot
linking to `X` in `stateOrphan` removes node `X`; node `m` survives. -/
theorem deleteHotspot_orphan_spec_witness :
    (linksTo (deleteHotspot "m" "h1" stateOrphan).graph "X" = false →
        alGet (deleteHotspot "m" "h1" stateOrphan).graph "X" = Option.none)
    ∧ (linksTo (deleteHotspot "m" "h1" stateOrphan).graph "X" = true →
        (alGet (deleteHotspot "m" "h1" stateOrphan).graph "X").isSome
          = (alGet stateOrphan.graph "X").isSome)
    ∧ (alGet (deleteHotspot "m" "h1" stateOrphan).graph "m").isSome
        = (alGet stateOrphan.graph "m").isSome :=
  deleteHotspot_orphan_spec stateOrphan "m" "h1" "X" "m"
    ⟨some "m.png", [hotspotOrphan]⟩ hotspotOrphan
    (by decide) (by decide) (by decide) (by decide) (by decide) (by decide)

/-- Counterexample to claim C3: deleting the only hotspot whose
`link_to_map_id` is the empty string: no remaining hotspot links to
`""`, yet the node keyed `""` is NOT deleted, because the code's `if
(linkedMapId && ...)` truthiness guard treats the empty string as
false and skips the cleanup. -/
theorem deleteHotspot_empty_id_no_cleanup_cex :
    alGet (deleteHotspot "m" "h1" stateEmptyLink).graph "" = some ⟨some "e.png", []⟩
    ∧ linksTo (deleteHotspot "m" "h1" stateEmptyLink).graph "" = false := by decide

/-!
Claim C2.
-/

/-- Counterexample to claim C2: a 2x2-pixel drag (above the 1-pixel
threshold) with scale 1 and pan `positionX = -10000` is clamped to
`pctX = 100` with the minimum width `pctW = 0.1`, so that
`pctX + pctW = 100.1 > 100`, refuting the claimed bound
`pctX + pctW ≤ 100`. -/
theorem handleMouseUp_sum_exceeds_cex :
    handleMouseUp ⟨0, 0, 2, 2⟩ 1 (-10000) 0 100 100 100 100 = some ⟨100, 0, 1 / 10, 2⟩
    ∧ ¬((100 : ℚ) + 1 / 10 ≤ 100) := by
  constructor
  · norm_num [handleMouseUp, mathMin, mathMax]
  · norm_num

/-- Claim C2 (amended): every rectangle delivered to `onHotspotDrawn`
satisfies `pctX, pctY ∈ [0, 100]`, `pctW, pctH ≥ 0.1`, and
`pctX + pctW ≤ 100` whenever `pctX ≤ 99.9` (symmetrically for `y`); in
general the minimum-size clamp only guarantees
`pctX + pctW ≤ 100.1` (and `pctY + pctH ≤ 100.1`), because when the
clamped `pctX` exceeds `99.9` the width floor of `0.1` pushes the sum
past 100. -/
theorem handleMouseUp_clamp_spec (currentRect : Rect)
    (scale positionX positionY naturalW naturalH offsetW offsetH : ℚ) (r : Rect)
    (hw : currentRect.width > 1) (hh : currentRect.height > 1) (hs : scale ≠ 0)
    (hr : handleMouseUp currentRect scale positionX positionY
        naturalW naturalH offsetW offsetH = some r) :
    0 ≤ r.x ∧ r.x ≤ 100 ∧ 0 ≤ r.y ∧ r.y ≤ 100
    ∧ 1 / 10 ≤ r.width ∧ 1 / 10 ≤ r.height
    ∧ (r.x ≤ 100 - 1 / 10 → r.x + r.width ≤ 100)
    ∧ (r.y ≤ 100 - 1 / 10 → r.y + r.height ≤ 100)
    ∧ r.x + r.width ≤ 100 + 1 / 10
    ∧ r.y + r.height ≤ 100 + 1 / 10 := by
  unfold handleMouseUp at hr
  rw [if_pos ⟨hw, hh⟩] at hr
  by_cases hz : naturalW = 0 ∨ naturalH = 0
  · rw [if_pos hz] at hr; cases hr
  · rw [if_neg hz] at hr
    dsimp only at hr
    injection hr with hr
    subst hr
    dsimp only
    exact ⟨(clampPos_bounds _).1, (clampPos_bounds _).2,
      (clampPos_bounds _).1, (clampPos_bounds _).2,
      (clampDim_bounds _ _ (clampPos_bounds _).2).1,
      (clampDim_bounds _ _ (clampPos_bounds _).2).1,
      (clampDim_bounds _ _ (clampPos_bounds _).2).2.2,
      (clampDim_bounds _ _ (clampPos_bounds _).2).2.2,
      (clampDim_bounds _ _ (clampPos_bounds _).2).2.1,
      (clampDim_bounds _ _ (clampPos_bounds _).2).2.1⟩

/-- Witness for the amended claim C2 theorem: an ordinary 20x20 drag at
scale 1 with no pan yields the rectangle `(10, 10, 20, 20)`. -/
theorem handleMouseUp_clamp_spec_witness :
    0 ≤ (10 : ℚ) ∧ (10 : ℚ) ≤ 100 ∧ 0 ≤ (10 : ℚ) ∧ (10 : ℚ) ≤ 100
    ∧ 1 / 10 ≤ (20 : ℚ) ∧ 1 / 10 ≤ (20 : ℚ)
    ∧ ((10 : ℚ) ≤ 100 - 1 / 10 → (10 : ℚ) + 20 ≤ 100)
    ∧ ((10 : ℚ) ≤ 100 - 1 / 10 → (10 : ℚ) + 20 ≤ 100)
    ∧ (10 : ℚ) + 20 ≤ 100 + 1 / 10
    ∧ (10 : ℚ) + 20 ≤ 100 + 1 / 10 :=
  handleMouseUp_clamp_spec ⟨10, 10, 20, 20⟩ 1 0 0 100 100 100 100 ⟨10, 10, 20, 20⟩
    (by norm_num) (by norm_num) (by norm_num)
    (by norm_num [handleMouseUp, mathMin, mathMax])

/-!
Claim C6.
-/

theorem mem_alInsert {α : Type} (m : List (String × α)) (k : String) (v : α)
    (kv : String × α) (h : kv ∈ alInsert m k v) : kv = (k, v) ∨ kv ∈ m := by
  induction m with
  | nil => simpa [alInsert] using h
  | cons hd tl ih =>
    obtain ⟨k₀, v₀⟩ := hd
    by_cases h0 : k₀ = k
    · simp only [alInsert, if_pos h0, List.mem_cons] at h
      rcases h with h | h
      · exact Or.inl h
      · exact Or.inr (List.mem_cons_of_mem _ h)
    · simp only [alInsert, if_neg h0, List.mem_cons] at h
      rcases h with h | h
      · exact Or.inr (h ▸ List.mem_cons_self _ _)
      · rcases ih h with h' | h'
        · exact Or.inl h'
        · exact Or.inr (List.mem_cons_of_mem _ h')

theorem mem_foldl_alInsert {α : Type} (l init : List (String × α)) (kv : String × α)
    (h : kv ∈ l.foldl (fun acc p => alInsert acc p.1 p.2) init) : kv ∈ init ∨ kv ∈ l := by
  induction l generalizing init with
  | nil => exact Or.inl h
  | cons hd tl ih =>
    simp only [List.foldl_cons] at h
    rcases ih _ h with h' | h'
    · rcases mem_alInsert _ _ _ _ h' with h'' | h''
      · subst h''
        exact Or.inr (List.mem_cons_self _ _)
      · exact Or.inl h''
    · exact Or.inr (List.mem_cons_of_mem _ h')

theorem mapMExcept_ok_mem {α β : Type} (f : α → Except String β) (l : List α)
    (bs : List β) (b : β) (h : mapMExcept f l = Except.ok bs) (hb : b ∈ bs) :
    ∃ a ∈ l, f a = Except.ok b := by
  induction l generalizing bs with
  | nil =>
    simp only [mapMExcept] at h
    injection h with h
    subst h
    cases hb
  | cons a as ih =>
    simp only [mapMExcept] at h
    cases hfa : f a with
    | error e => rw [hfa] at h; cases h
    | ok b0 =>
      rw [hfa] at h
      cases hrest : mapMExcept f as with
      | error e => rw [hrest] at h; cases h
      | ok bs0 =>
        rw [hrest] at h
        injection h with h
        subst h
        rcases List.mem_cons.mp hb with hb | hb
        · exact ⟨a, List.mem_cons_self _ _, hb ▸ hfa⟩
        · obtain ⟨a', ha', hfa'⟩ := ih bs0 hrest hb
          exact ⟨a', List.mem_cons_of_mem _ ha', hfa'⟩

theorem normalizeNode_hotspots_truthy (v : Jsval) (nd : MapDefinition)
    (h : normalizeNode v = Except.ok nd) :
    ∀ hs ∈ nd.hotspots, truthyS hs.linkType = true := by
  unfold normalizeNode at h
  cases h1 : getProp v "imageUrl" with
  | error e => rw [h1] at h; cases h
  | ok iu =>
    rw [h1] at h
    dsimp only at h
    cases h2 : getProp v "hotspots" with
    | error e => rw [h2] at h; cases h
    | ok hv =>
      rw [h2] at h
      dsimp only at h
      cases h3 : jsHotspotsList hv with
      | error e => rw [h3] at h; cases h
      | ok l =>
        rw [h3] at h
        dsimp only at h
        cases h4 : mapMExcept normalizeHotspot l with
        | error e => rw [h4] at h; cases h
        | ok hsl =>
          rw [h4] at h
          injection h with h
          subst h
          intro hs hmem
          exact (List.mem_filter.mp hmem).2

/-- Claim C6 (amended): the normalizer does NOT drop hotspots for
missing `id`, `x`, `y`, `width` or `height`; a hotspot is dropped
exactly when its link type cannot be determined.  Every hotspot in the
normalized output therefore has a truthy `linkType` — but may lack any
of the positional fields. -/
theorem normalize_survivors_have_linkType (dta : Jsval) (g : MapCollection)
    (kv : String × MapDefinition) (hs : Hotspot)
    (hg : normalizeMapData dta = Except.ok g)
    (hkv : kv ∈ g) (hhs : hs ∈ kv.2.hotspots) :
    truthyS hs.linkType = true := by
  unfold normalizeMapData at hg
  cases hn : mapMExcept (fun kv => match normalizeNode kv.2 with
      | Except.error e => Except.error e
      | Except.ok nd => Except.ok (kv.1, nd)) (jsEnumerate dta) with
  | error e => rw [hn] at hg; cases hg
  | ok nodes =>
    rw [hn] at hg
    injection hg with hg
    subst hg
    rcases mem_foldl_alInsert nodes [] kv hkv with h | h
    · cases h
    · obtain ⟨a, _, hfa⟩ := mapMExcept_ok_mem _ _ _ _ hn h
      cases hna : normalizeNode a.2 with
      | error e => rw [hna] at hfa; cases hfa
      | ok nd =>
        rw [hna] at hfa
        injection hfa with hfa
        have h2 : kv.2 = nd := by rw [← hfa]
        rw [h2] at hhs
        exact normalizeNode_hotspots_truthy a.2 nd hna hs hhs

/-- Witness for the amended claim C6 theorem: the surviving hotspot of
`rawMissingId` has a truthy link type. -/
theorem normalize_survivors_have_linkType_witness :
    truthyS hotspotSurvivor.linkType = true :=
  normalize_survivors_have_linkType rawMissingId normMissingId
    ("m", { imageUrl := some "m.png", hotspots := [hotspotSurvivor] }) hotspotSurvivor
    (by rfl) (by decide) (by decide)

/-- Counterexample to claim C6: normalizing a document whose only
hotspot has a `link_to_map_id` but no `id`, `x`, `y`, `width` or
`height` keeps that hotspot (with `id = none`) in the output — the
normalizer never checks those fields. -/
theorem normalize_keeps_missing_id_cex :
    normalizeMapData rawMissingId = Except.ok normMissingId
    ∧ alGet normMissingId "m" = some ⟨some "m.png", [hotspotSurvivor]⟩
    ∧ hotspotSurvivor.id = Option.none
    ∧ hotspotSurvivor.x = Option.none
    ∧ hotspotSurvivor.y = Option.none
    ∧ hotspotSurvivor.width = Option.none
    ∧ hotspotSurvivor.height = Option.none := by
  refine ⟨by rfl, by decide, rfl, rfl, rfl, rfl, rfl⟩

/-!
Claim C7.
-/

/-- Counterexample to claim C7: the valid JSON document `"ab"` — a
plain string, hence a non-object — is NOT rejected: `for..in` over a
string enumerates its character indices, so the graph is replaced by
two junk nodes `"0"`, `"1"` and navigation resets, while the claim
says any non-object input leaves the state untouched. -/
theorem loadNewMapData_nonobject_replaces_cex :
    (loadNewMapData (some (Jsval.str "ab")) stateLoaded).graph = strDocGraph
    ∧ (loadNewMapData (some (Jsval.str "ab")) stateLoaded).graph ≠ stateLoaded.graph
    ∧ (loadNewMapData (some (Jsval.str "ab")) stateLoaded).currentMapId = some "0"
    ∧ (loadNewMapData (some (Jsval.str "ab")) stateLoaded).history = [] := by
  refine ⟨by rfl, by decide, by rfl, by rfl⟩

/-- Claim C7 (amended): `loadNewMapData` replaces the whole state —
graph atomically swapped, `currentMapId` set to the first key of the
normalized mapping in JavaScript key order, history emptied,
`editAction` and the transform cache reset — exactly when the input
parses, normalizes without throwing, and yields a non-empty mapping
whose first key is non-empty; this includes non-object inputs such as
strings or arrays, whose indices become keys.  On unparsable JSON, a
thrown `TypeError`, an empty normalized mapping, or an empty-string
first key, the previous graph, current map id and history are left
untouched and only a descriptive error is set. -/
theorem loadNewMapData_spec (p : Option Jsval) (s : NavState) (dta : Jsval) (e : String)
    (g : MapCollection) (k : String) (ks : List String) (rootDef : MapDefinition) :
    (p = Option.none → loadNewMapData p s
        = { s with error := some "Failed to load new data: Invalid JSON format." })
    ∧ (p = some dta → normalizeMapData dta = Except.error e → loadNewMapData p s
        = { s with error := some "Failed to load new data: Invalid JSON format." })
    ∧ (p = some dta → normalizeMapData dta = Except.ok g → jsOwnKeys g = [] →
        loadNewMapData p s
          = { s with error := some "Failed to load new data: Invalid JSON structure." })
    ∧ (p = some dta → normalizeMapData dta = Except.ok g → jsOwnKeys g = "" :: ks →
        loadNewMapData p s
          = { s with error := some "Failed to load new data: Invalid structure or missing root map." })
    ∧ (p = some dta → normalizeMapData dta = Except.ok g → jsOwnKeys g = k :: ks →
        k ≠ "" → alGet g k = some rootDef →
        loadNewMapData p s
          = { graph := g, currentMapId := some k, history := [], error := Option.none,
              editAction := EditAction.none, mapViewTransforms := [] }) := by
  refine ⟨?_, ?_, ?_, ?_, ?_⟩
  · intro hp
    subst hp
    rfl
  · intro hp hn
    subst hp
    unfold loadNewMapData
    dsimp only
    rw [hn]
  · intro hp hn hkeys
    subst hp
    unfold loadNewMapData
    dsimp only
    rw [hn]
    dsimp only
    rw [hkeys]
    rfl
  · intro hp hn hkeys
    subst hp
    unfold loadNewMapData
    dsimp only
    rw [hn]
    dsimp only
    rw [hkeys]
    dsimp only [List.length_cons, List.head?]
    rw [if_pos (Nat.succ_pos _), if_pos rfl]
  · intro hp hn hkeys hk hroot
    subst hp
    unfold loadNewMapData
    dsimp only
    rw [hn]
    dsimp only
    rw [hkeys]
    dsimp only [List.length_cons, List.head?]
    rw [if_pos (Nat.succ_pos _), if_neg hk, hroot]

/-- Witness for the amended claim C7 theorem: loading the document
`"ab"` from `stateLoaded` resets the whole state onto the two-node
junk graph rooted at `"0"`. -/
theorem loadNewMapData_spec_witness :
    loadNewMapData (some (Jsval.str "ab")) stateLoaded
      = { graph := strDocGraph, currentMapId := some "0", history := [],
          error := Option.none, editAction := EditAction.none, mapViewTransforms := [] } :=
  (loadNewMapData_spec (some (Jsval.str "ab")) stateLoaded (Jsval.str "ab") ""
      strDocGraph "0" ["1"] ⟨Option.none, []⟩).2.2.2.2
    rfl (by rfl) (by rfl) (by decide) (by decide)
